import Mathlib

/-!
# Verification of the tsb street-lamp resolution core

A shallow embedding of the lamp-resolution pipeline:

* string primitives modelling the JavaScript runtime operations used by the
  sources (`toLowerCase`, `trim`, whitespace collapsing, substring test);
* `BratislavaStreetsService` (gazetteer normalization, exact / substring /
  Levenshtein matching) from `src/services/bratislavaStreets.ts`;
* the ArcGIS transport (`executeWithRetry`, `queryAll`) from
  `src/services/arcgisQuery.ts`;
* schema field discovery from `src/services/fieldDiscovery.ts`;
* the lamp search cascade from `src/services/lampSearch.ts`;
* the incident candidate scorer from `src/services/reportingService.ts`.

Remote services (the ArcGIS feature store, geocoding, the language-model
matcher) are modelled as explicit environment functions supplied to each
operation, so that every operation is a pure function of its environment.
-/

namespace Tsb

/-! ## JavaScript string primitives -/

/-- Unicode simple lower-casing for the alphabet that occurs in the sources:
ASCII letters plus the accented Latin capitals named in the normalization
table of `bratislavaStreets.ts`.  Models `String.prototype.toLowerCase`. -/
def jsCharToLower (c : Char) : Char :=
  if 'A' ≤ c ∧ c ≤ 'Z' then Char.ofNat (c.toNat + 32)
  else match c with
  | 'Á' => 'á' | 'Ä' => 'ä' | 'Č' => 'č' | 'Ć' => 'ć' | 'Ď' => 'ď' | 'Đ' => 'đ'
  | 'É' => 'é' | 'Ě' => 'ě' | 'Ë' => 'ë' | 'Í' => 'í' | 'Ľ' => 'ľ' | 'Ĺ' => 'ĺ'
  | 'Ň' => 'ň' | 'Ń' => 'ń' | 'Ó' => 'ó' | 'Ô' => 'ô' | 'Ö' => 'ö' | 'Ŕ' => 'ŕ'
  | 'Ř' => 'ř' | 'Š' => 'š' | 'Ś' => 'ś' | 'Ť' => 'ť' | 'Ú' => 'ú' | 'Ů' => 'ů'
  | 'Ü' => 'ü' | 'Ý' => 'ý' | 'Ÿ' => 'ÿ' | 'Ž' => 'ž' | 'Ź' => 'ź'
  | c => c

/-- `s.toLowerCase()` over the modelled alphabet. -/
def jsToLower (s : String) : String :=
  String.mk (s.toList.map jsCharToLower)

/-- Unicode simple upper-casing over the same alphabet; models
`String.prototype.toUpperCase`. -/
def jsCharToUpper (c : Char) : Char :=
  if 'a' ≤ c ∧ c ≤ 'z' then Char.ofNat (c.toNat - 32)
  else match c with
  | 'á' => 'Á' | 'ä' => 'Ä' | 'č' => 'Č' | 'ć' => 'Ć' | 'ď' => 'Ď' | 'đ' => 'Đ'
  | 'é' => 'É' | 'ě' => 'Ě' | 'ë' => 'Ë' | 'í' => 'Í' | 'ľ' => 'Ľ' | 'ĺ' => 'Ĺ'
  | 'ň' => 'Ň' | 'ń' => 'Ń' | 'ó' => 'Ó' | 'ô' => 'Ô' | 'ö' => 'Ö' | 'ŕ' => 'Ŕ'
  | 'ř' => 'Ř' | 'š' => 'Š' | 'ś' => 'Ś' | 'ť' => 'Ť' | 'ú' => 'Ú' | 'ů' => 'Ů'
  | 'ü' => 'Ü' | 'ý' => 'Ý' | 'ÿ' => 'Ÿ' | 'ž' => 'Ž' | 'ź' => 'Ź'
  | c => c

/-- `s.toUpperCase()` over the modelled alphabet. -/
def jsToUpper (s : String) : String :=
  String.mk (s.toList.map jsCharToUpper)

/-- The whitespace class used by `trim` and `\s`. -/
def jsIsWhitespace (c : Char) : Bool :=
  c = ' ' || c = '\t' || c = '\n' || c = '\r'

/-- `s.trim()`: strip leading and trailing whitespace. -/
def jsTrim (s : String) : String :=
  String.mk ((s.toList.dropWhile jsIsWhitespace).reverse.dropWhile jsIsWhitespace |>.reverse)

/-- `.replace(/\s+/g, ' ')`: collapse every maximal whitespace run to one
space.  The flag records whether the previous character was whitespace, so
only the first character of a run emits the space. -/
def collapseWsGo : Bool → List Char → List Char
  | _, [] => []
  | afterWs, c :: cs =>
    if jsIsWhitespace c then
      if afterWs then collapseWsGo true cs else ' ' :: collapseWsGo true cs
    else c :: collapseWsGo false cs

/-- `s.replace(/\s+/g, ' ')`. -/
def collapseWhitespace (s : String) : String :=
  String.mk (collapseWsGo false s.toList)

/-- `xs` contains `sub` as a contiguous substring (JS `String.prototype.includes`). -/
def listContainsSub (xs sub : List Char) : Bool :=
  (List.range (xs.length + 1)).any fun i => sub.isPrefixOf (xs.drop i)

/-- `a.includes(b)` on strings. -/
def jsIncludes (a b : String) : Bool :=
  listContainsSub a.toList b.toList

/-! ## Street gazetteer and matcher (`bratislavaStreets.ts`) -/

/-- The diacritics-folding table of `normalizeStreetName`: the character
classes of its chained `.replace` calls.  The classes are disjoint from each
other and from their ASCII outputs, so the chain is a single character map. -/
def foldDiacriticChar (c : Char) : Char :=
  match c with
  | 'á' => 'a' | 'ä' => 'a'
  | 'č' => 'c' | 'ć' => 'c'
  | 'ď' => 'd' | 'đ' => 'd'
  | 'é' => 'e' | 'ě' => 'e' | 'ë' => 'e'
  | 'í' => 'i'
  | 'ľ' => 'l' | 'ĺ' => 'l'
  | 'ň' => 'n' | 'ń' => 'n'
  | 'ó' => 'o' | 'ô' => 'o' | 'ö' => 'o'
  | 'ŕ' => 'r' | 'ř' => 'r'
  | 'š' => 's' | 'ś' => 's'
  | 'ť' => 't'
  | 'ú' => 'u' | 'ů' => 'u' | 'ü' => 'u'
  | 'ý' => 'y' | 'ÿ' => 'y'
  | 'ž' => 'z' | 'ź' => 'z'
  | c => c

/-- `BratislavaStreetsService.normalizeStreetName`: lowercase, trim, collapse
whitespace, fold diacritics. -/
def normalizeStreetName (name : String) : String :=
  String.mk ((collapseWhitespace (jsTrim (jsToLower name))).toList.map foldDiacriticChar)

/-- A gazetteer entry (`BratislavaStreet`). -/
structure BratislavaStreet where
  name : String
  normalized : String
deriving DecidableEq, Repr

/-- One row step of the Levenshtein dynamic program of
`levenshteinDistance`: `left` is the freshly computed cell to the left,
`diag` the previous row's cell diagonally up-left, `up :: rest` the previous
row's cells from the current column rightwards. -/
def levRowGo (c2 : Char) : Nat → Nat → List Char → List Nat → List Nat
  | left, diag, c :: cs, up :: rest =>
    let v := min (left + 1) (min (up + 1) (diag + (if c = c2 then 0 else 1)))
    v :: levRowGo c2 v up cs rest
  | _, _, _, _ => []

/-- The next row of the Levenshtein matrix given the previous row. -/
def levRow (c2 : Char) (str1 : List Char) (prev : List Nat) : List Nat :=
  match prev with
  | [] => []
  | p0 :: rest => (p0 + 1) :: levRowGo c2 (p0 + 1) p0 str1 rest

/-- `levenshteinDistance(str1, str2)`: the row-by-row dynamic program of
`bratislavaStreets.ts`; the answer is the last cell of the final row. -/
def levenshteinDistance (str1 str2 : String) : Nat :=
  let cs1 := str1.toList
  let finalRow :=
    str2.toList.foldl (fun prev c2 => levRow c2 cs1 prev) (List.range (cs1.length + 1))
  (finalRow.getLast?).getD 0

/-- `BratislavaStreetsService.findBestMatch`, with the gazetteer snapshot
(the result of `getAllStreets`) passed explicitly. -/
def findBestMatch (allStreets : List BratislavaStreet) (userInput : String) :
    List BratislavaStreet :=
  let normalizedInput := normalizeStreetName userInput
  match allStreets.find? (fun street => street.normalized = normalizedInput) with
  | some exactMatch => [exactMatch]
  | none =>
    let partialMatches :=
      (allStreets.filter fun street =>
        jsIncludes street.normalized normalizedInput ||
        jsIncludes normalizedInput street.normalized).take 5
    if partialMatches.length > 0 then partialMatches
    else
      (allStreets.filter fun street =>
        levenshteinDistance street.normalized normalizedInput ≤
          max 2 (normalizedInput.length * 3 / 10)).take 3

/-! ## Data model: attribute values, geometry, features -/

/-- A scalar attribute value of a feature (the dynamic `any` values of the
TypeScript attribute maps, restricted to the scalars that occur). -/
inductive AttrValue where
  | str (s : String)
  | num (n : Int)
  | null
deriving DecidableEq, Repr

/-- JavaScript truthiness of an attribute value (`0`, `''`, `null` are falsy). -/
def truthy : AttrValue → Bool
  | .str s => s ≠ ""
  | .num n => n ≠ 0
  | .null => false

/-- `String(v)` for the modelled scalars. -/
def jsString : AttrValue → String
  | .str s => s
  | .num n => toString n
  | .null => "null"

/-- Property lookup in an attribute map (`attributes[key]`); `none` models
`undefined`. -/
def attrGet (attrs : List (String × AttrValue)) (key : String) : Option AttrValue :=
  (attrs.find? (fun p => p.1 = key)).map (·.2)

/-- Stored feature geometry: the dynamic `geometry` object of the sources,
which either carries `x`/`y` fields (a point), a `rings` array (a polygon),
or is absent/shapeless.  Coordinates are modelled as rationals. -/
inductive Geometry where
  | point (x y : Rat)
  | polygon (rings : List (List (Rat × Rat)))
  | missing
deriving DecidableEq, Repr

/-- `transformCoordinates` from the geometry utility (the `utils/geometry`
module, embedded in `src/types/tsbForm.ts`): an absent geometry gives
`null`; a geometry with `x` and `y` gives `[x, y]` directly; a geometry
with a non-empty `rings` array whose first ring is non-empty gives the
arithmetic centroid (`reduce`-sum of each coordinate over the first ring,
divided by its length); anything else gives `null`.  The `_sourceSrid`
parameter is unused in the source and omitted. -/
def transformCoordinates : Geometry → Option (Rat × Rat)
  | .point x y => some (x, y)
  | .polygon (ring :: _) =>
    if ring.length > 0 then
      some ((ring.map Prod.fst).sum / ring.length, (ring.map Prod.snd).sum / ring.length)
    else none
  | .polygon [] => none
  | .missing => none

/-- A raw remote feature (`ArcGISFeature`). -/
structure ArcGISFeature where
  attributes : List (String × AttrValue)
  geometry : Geometry
deriving DecidableEq, Repr

/-- One page of a remote query (`ArcGISQueryResponse`); an absent
`exceededTransferLimit` is modelled as `false`, absent `features` as `[]`. -/
structure ArcGISQueryResponse where
  features : List ArcGISFeature
  exceededTransferLimit : Bool
deriving DecidableEq, Repr

/-- A failed remote call; `status` is the HTTP status of the response when
one exists (`axiosError.response?.status`). -/
structure QueryError where
  status : Option Nat
deriving DecidableEq, Repr

/-! ## Configuration constants (`config.ts`) -/

/-- `config.arcgis.maxRetries`. -/
def maxRetries : Nat := 2

/-- `config.arcgis.retryDelayMs`. -/
def retryDelayMs : Nat := 1000

/-- `config.search.maxRecordCount`. -/
def maxRecordCount : Nat := 1000

/-- `config.cache.fieldDiscoveryTtlSeconds`. -/
def fieldDiscoveryTtlSeconds : Nat := 600

/-! ## Transport layer (`arcgisQuery.ts`)

The remote endpoint is an environment function from attempt number (for the
retry loop) or paging offset (for pagination) to an outcome. -/

/-- The retry loop body of `ArcGISQueryService.executeWithRetry`.
`respond attempt` is the outcome of the HTTP call on that attempt,
`remaining` the number of loop iterations left (`retries + 1 - attempt`),
`lastError` the error of the previous attempt, `sleeps` the backoff delays
slept so far.  Returns the surfaced outcome, the number of attempts actually
executed, and the backoff delays in order. -/
def executeWithRetryGo (respond : Nat → Except QueryError α) :
    Nat → Nat → Option QueryError → List Nat →
    Except QueryError α × Nat × List Nat
  | attempt, 0, lastError, sleeps =>
    (.error (lastError.getD ⟨none⟩), attempt, sleeps)
  | attempt, remaining + 1, _lastError, sleeps =>
    let sleeps := if attempt > 0 then sleeps ++ [retryDelayMs * 2 ^ (attempt - 1)] else sleeps
    match respond attempt with
    | .ok v => (.ok v, attempt + 1, sleeps)
    | .error e =>
      if e.status = some 400 then (.error e, attempt + 1, sleeps)
      else executeWithRetryGo respond (attempt + 1) remaining (some e) sleeps

/-- `ArcGISQueryService.executeWithRetry` with `retries` total retries
(default `config.arcgis.maxRetries`). -/
def executeWithRetry (respond : Nat → Except QueryError α) (retries : Nat) :
    Except QueryError α × Nat × List Nat :=
  executeWithRetryGo respond 0 (retries + 1) none []

/-- The pagination loop of `ArcGISQueryService.queryAll`.  `respond offset`
is the page returned for that offset.  Returns the outcome and the ordered
list of offsets actually queried. -/
def queryAllGo (respond : Nat → Except QueryError ArcGISQueryResponse)
    (offset : Nat) (acc : List ArcGISFeature) :
    Except QueryError (List ArcGISFeature) × List Nat :=
  match respond offset with
  | .error e => (.error e, [offset])
  | .ok page =>
    if h : 0 < page.features.length ∧
        (page.exceededTransferLimit = true ∨ page.features.length = maxRecordCount) ∧
        (acc ++ page.features).length ≤ 5000 then
      let rest := queryAllGo respond (offset + page.features.length) (acc ++ page.features)
      (rest.1, offset :: rest.2)
    else
      (.ok (acc ++ page.features), [offset])
termination_by 5001 - acc.length
decreasing_by
  simp only [List.length_append] at h ⊢
  omega

/-- `queryAll`, starting at offset 0 with an empty accumulator. -/
def queryAll (respond : Nat → Except QueryError ArcGISQueryResponse) :
    Except QueryError (List ArcGISFeature) × List Nat :=
  queryAllGo respond 0 []

/-! ## Schema field discovery (`fieldDiscovery.ts`) -/

/-- Remote layer field metadata (`ArcGISField`). -/
structure ArcGISField where
  name : String
  type : String
  /-- The optional display alias (the source's `alias` property). -/
  aliasName : Option String
deriving DecidableEq, Repr

/-- `FieldDiscoveryService.streetFieldPatterns`. -/
def streetFieldPatterns : List String :=
  ["ulica", "street", "nazov_ulice", "nazov", "cesta", "name"]

/-- `FieldDiscoveryService.lampIdFieldPatterns`. -/
def lampIdFieldPatterns : List String :=
  ["lamp", "stlp", "stĺp", "cislo", "number", "id", "svetlo", "svetelne"]

/-- The per-pattern test of both identify loops:
`fieldNameLower.includes(pattern) || aliasLower.includes(pattern)`. -/
def fieldMatchesPattern (field : ArcGISField) (pattern : String) : Bool :=
  jsIncludes (jsToLower field.name) pattern ||
  jsIncludes (jsToLower (field.aliasName.getD "")) pattern

/-- The inner pattern loop of `identifyStreetFields`: the field is pushed
(and the loop broken) at the first matching pattern whose type check passes;
a matching pattern of a non-string field does not break the loop. -/
def streetFieldAccept (field : ArcGISField) : List String → Bool
  | [] => false
  | p :: ps =>
    if fieldMatchesPattern field p then
      if field.type = "esriFieldTypeString" then true
      else streetFieldAccept field ps
    else streetFieldAccept field ps

/-- `FieldDiscoveryService.identifyStreetFields`. -/
def identifyStreetFields (fields : List ArcGISField) : List String :=
  let streetFields := fields.filterMap fun field =>
    if streetFieldAccept field streetFieldPatterns then some field.name else none
  if streetFields.length > 0 then streetFields else ["ulica"]

/-- The body of `identifyLampIdFields`'s loop: fields literally named
`objectid`/`oid` (case-insensitively) are skipped; otherwise the field is
pushed at the first matching pattern. -/
def lampIdFieldAccept (field : ArcGISField) : Bool :=
  if jsToLower field.name = "objectid" ∨ jsToLower field.name = "oid" then false
  else lampIdFieldPatterns.any (fieldMatchesPattern field)

/-- `FieldDiscoveryService.identifyLampIdFields`. -/
def identifyLampIdFields (fields : List ArcGISField) : List String :=
  let lampIdFields := fields.filterMap fun field =>
    if lampIdFieldAccept field then some field.name else none
  if lampIdFields.length = 0 then ["OBJECTID"] else lampIdFields

/-- The discovered schema (`FieldDiscovery`). -/
structure FieldDiscovery where
  streetFields : List String
  lampIdFields : List String
  allFields : List ArcGISField
  timestamp : Nat
deriving DecidableEq, Repr

/-- The hardcoded default schema returned by `discoverFields` when the fetch
fails and no cache exists. -/
def defaultDiscovery (now : Nat) : FieldDiscovery :=
  { streetFields := ["ulica", "nazov_ulice", "street_name"]
    lampIdFields := ["cislo_stlp", "lamp_id", "objectid"]
    allFields := []
    timestamp := now }

/-- `FieldDiscoveryService.discoverFields`.  The metadata fetch is supplied
as `fetchResult`, the current cache as `cached`, the clock as `now`. -/
def discoverFields (cached : Option FieldDiscovery)
    (fetchResult : Except QueryError (List ArcGISField))
    (forceRefresh : Bool) (now : Nat) : FieldDiscovery :=
  if ¬forceRefresh ∧ cached.isSome ∧
      (∀ c ∈ cached, now - c.timestamp < fieldDiscoveryTtlSeconds * 1000) then
    cached.getD ⟨[], [], [], 0⟩
  else
    match fetchResult with
    | .ok fields =>
      { streetFields := identifyStreetFields fields
        lampIdFields := identifyLampIdFields fields
        allFields := fields
        timestamp := now }
    | .error _ =>
      match cached with
      | some c => c
      | none => defaultDiscovery now

/-! ## Lamp search cascade (`lampSearch.ts`)

The attribute endpoint is an environment `AttrEnv` from a where-clause and a
paging offset to a page; the spatial endpoint is keyed by the centre
coordinates and the attribute filter. -/

/-- Modelled from the spec: `removeDiacritics` from `utils/diacritics`, a
module absent from the sources; folds accented Latin letters (either case)
to their base letters via a fixed character table. -/
def removeDiacriticChar (c : Char) : Char :=
  match c with
  | 'Á' => 'A' | 'Ä' => 'A' | 'Č' => 'C' | 'Ć' => 'C' | 'Ď' => 'D' | 'Đ' => 'D'
  | 'É' => 'E' | 'Ě' => 'E' | 'Ë' => 'E' | 'Í' => 'I' | 'Ľ' => 'L' | 'Ĺ' => 'L'
  | 'Ň' => 'N' | 'Ń' => 'N' | 'Ó' => 'O' | 'Ô' => 'O' | 'Ö' => 'O' | 'Ŕ' => 'R'
  | 'Ř' => 'R' | 'Š' => 'S' | 'Ś' => 'S' | 'Ť' => 'T' | 'Ú' => 'U' | 'Ů' => 'U'
  | 'Ü' => 'U' | 'Ý' => 'Y' | 'Ÿ' => 'Y' | 'Ž' => 'Z' | 'Ź' => 'Z'
  | c => foldDiacriticChar c

/-- Modelled from the spec: `removeDiacritics` strips diacritics, leaving
everything else unchanged. -/
def removeDiacritics (s : String) : String :=
  String.mk (s.toList.map removeDiacriticChar)

/-- Modelled from the spec: `normalizeStreet` from `utils/diacritics`
canonicalizes a street name — lowercase, trimmed, whitespace collapsed —
while retaining diacritics (the cascade's de-accented step strips them from
the *normalized* input, so normalization itself must keep them). -/
def normalizeStreet (s : String) : String :=
  collapseWhitespace (jsTrim (jsToLower s))

/-- The attribute-query environment: where-clause and offset to outcome. -/
abbrev AttrEnv := String → Nat → Except QueryError ArcGISQueryResponse

/-- The spatial-query environment: centre latitude/longitude, combined
where-clause and offset to outcome.  The buffer-polygon construction
(`createBufferPolygon` in the geometry utility embedded in
`src/types/tsbForm.ts`) is floating-point trigonometry, but it is a
deterministic function of the centre and the fixed radius, so keying the
environment by the centre is equivalent to keying it by the polygon. -/
abbrev SpatialEnv := Rat → Rat → String → Nat → Except QueryError ArcGISQueryResponse

/-- The per-field filter `UPPER(field) LIKE UPPER('%street%')`. -/
def likeClause (field street : String) : String :=
  "UPPER(" ++ field ++ ") LIKE UPPER('%" ++ street ++ "%')"

/-- The combined OR-across-all-fields filter. -/
def combinedWhereClause (streetFields : List String) (street : String) : String :=
  String.intercalate " OR " (streetFields.map fun field => likeClause field street)

/-- `buildStreetWhereClause`. -/
def buildStreetWhereClause (street : String) (streetFields : List String) : String :=
  match streetFields with
  | [field] => likeClause field street
  | _ => combinedWhereClause streetFields street

/-- One attribute query of the cascade: `queryAll` over the given
where-clause, with a thrown transport error caught and treated as zero
features (the `try`/`catch` around each `queryAll` call). -/
def caughtQuery (env : AttrEnv) (whereClause : String) : List ArcGISFeature :=
  match (queryAll (env whereClause)).1 with
  | .ok features => features
  | .error _ => []

/-- The per-field loop of `tryStreetVariants`.  The second component is a
ghost trace of the where-clauses issued, in order; the first component is
the source's return value. -/
def tryStreetVariantsGo (env : AttrEnv) (street : String) :
    List String → List ArcGISFeature × List String
  | [] => ([], [])
  | field :: rest =>
    let w := likeClause field street
    let features := caughtQuery env w
    if features.length > 0 then (features, [w])
    else
      let next := tryStreetVariantsGo env street rest
      (next.1, w :: next.2)

/-- `LampSearchService.tryStreetVariants`: per-field queries in discovery
order, then the combined OR query when more than one street field exists and
no per-field query yielded a feature.  Ghost second component: the issued
where-clauses in order. -/
def tryStreetVariants (env : AttrEnv) (street : String)
    (streetFields : List String) : List ArcGISFeature × List String :=
  let perField := tryStreetVariantsGo env street streetFields
  if perField.1.length > 0 then perField
  else if streetFields.length > 1 then
    let combined := combinedWhereClause streetFields street
    (caughtQuery env combined, perField.2 ++ [combined])
  else ([], perField.2)

/-- `LampSearchService.searchByStreetAttribute`: direct variants first, then
the de-accented retry when nothing was found and stripping diacritics
changes the string.  Ghost second component: the `(original, deAccented)`
pairs for which the de-accented retry was performed. -/
def searchByStreetAttribute (env : AttrEnv) (fields : FieldDiscovery)
    (street : String) : List ArcGISFeature × List (String × String) :=
  let direct := (tryStreetVariants env street fields.streetFields).1
  if direct.length = 0 then
    let deAccented := removeDiacritics street
    if deAccented ≠ street then
      ((tryStreetVariants env deAccented fields.streetFields).1, [(street, deAccented)])
    else ([], [])
  else (direct, [])

/-- `LampSearchService.searchWithSpatialFilter`: the spatial-intersection
query combined with the OR-across-fields attribute filter; a thrown
transport error is caught and treated as zero features. -/
def searchWithSpatialFilter (spatial : SpatialEnv) (street : String)
    (lat lng : Rat) (fields : FieldDiscovery) : List ArcGISFeature :=
  let whereClause := buildStreetWhereClause street fields.streetFields
  match (queryAll (spatial lat lng whereClause)).1 with
  | .ok features => features
  | .error _ => []

/-- A resolved lamp record (`Lamp`). -/
structure Lamp where
  id : String
  lampNumber : Option String
  coords : Rat × Rat
  attributes : List (String × AttrValue)
deriving DecidableEq, Repr

/-- A present, non-`null` attribute lookup (the
`!== undefined && !== null` guards of `extractLampNumber`). -/
def presentNonNull (o : Option AttrValue) : Option AttrValue :=
  match o with
  | some v => if v = AttrValue.null then none else some v
  | none => none

/-- `LampSearchService.extractLampNumber`: for each lamp-id field try the
field name as given (skipping `null` and the empty string), then its
lower-cased and upper-cased spellings (skipping only `null`). -/
def extractLampNumber (attrs : List (String × AttrValue)) :
    List String → Option String
  | [] => none
  | field :: rest =>
    let direct :=
      match attrGet attrs field with
      | some v =>
        if v = AttrValue.null ∨ v = AttrValue.str "" then none else some (jsString v)
      | none => none
    match direct with
    | some s => some s
    | none =>
      match presentNonNull (attrGet attrs (jsToLower field)) with
      | some v => some (jsString v)
      | none =>
        match presentNonNull (attrGet attrs (jsToUpper field)) with
        | some v => some (jsString v)
        | none => extractLampNumber attrs rest

/-- The record-identity chain of `transformFeaturesToLamps`:
`attributes.OBJECTID || attributes.objectid || attributes.OID`, JavaScript
truthiness (`0`, `''`, `null`, absent are all falsy). -/
def lampIdValue (attrs : List (String × AttrValue)) : Option AttrValue :=
  let pick := fun key =>
    match attrGet attrs key with
    | some v => if truthy v then some v else none
    | none => none
  (pick "OBJECTID").orElse fun _ => (pick "objectid").orElse fun _ => pick "OID"

/-- `LampSearchService.transformFeaturesToLamps`.  `rand i` is the value of
`String(Math.random())` drawn for the feature at position `i` when the
identity chain is falsy.  Features without resolvable geometry map to
`null` and are filtered out. -/
def transformFeaturesToLamps (features : List ArcGISFeature)
    (fields : FieldDiscovery) (rand : Nat → String) : List Lamp :=
  (features.enum.map fun (i, feature) =>
    match transformCoordinates feature.geometry with
    | none => none
    | some coords =>
      let id := match lampIdValue feature.attributes with
        | some v => jsString v
        | none => rand i
      some (Lamp.mk id (extractLampNumber feature.attributes fields.lampIdFields)
        coords feature.attributes)).filterMap id

/-- A search request (`LampSearchRequest`). -/
structure LampSearchRequest where
  street : String
  lat : Option Rat
  lng : Option Rat

/-- The AI-suggestion loop of `searchLamps`: each suggestion re-enters
`searchByStreetAttribute`, stopping at the first non-empty result.  Ghost
second component: the accumulated de-accent trace of the attempted calls. -/
def suggestionLoop (env : AttrEnv) (fields : FieldDiscovery) :
    List String → List ArcGISFeature × List (String × String)
  | [] => ([], [])
  | s :: rest =>
    let attempt := searchByStreetAttribute env fields s
    if attempt.1.length > 0 then attempt
    else
      let next := suggestionLoop env fields rest
      (next.1, attempt.2 ++ next.2)

/-- The result of `searchLamps`.  `suggestedStreets = []` models the absent
key; `deAccentTrace` is the ghost trace of de-accented retries performed
anywhere in the request. -/
structure SearchOutput where
  lamps : List Lamp
  fieldDiscovery : FieldDiscovery
  suggestedStreets : List String
  deAccentTrace : List (String × String)
deriving Repr

/-- `LampSearchService.searchLamps`.  The discovered schema `fields` is the
result of `discoverFields`; `matcher` is the street matcher
(`StreetMatcherService.findBestStreetMatch`, whose code catches all of its
own failures and therefore always returns a plain list). -/
def searchLamps (env : AttrEnv) (spatial : SpatialEnv)
    (matcher : String → List String) (fields : FieldDiscovery)
    (rand : Nat → String) (request : LampSearchRequest) : SearchOutput :=
  let normalizedStreet := normalizeStreet request.street
  let spatialFeatures :=
    match request.lat, request.lng with
    | some lat, some lng => searchWithSpatialFilter spatial normalizedStreet lat lng fields
    | _, _ => []
  let attrStep :=
    if spatialFeatures.length = 0 then
      searchByStreetAttribute env fields normalizedStreet
    else (spatialFeatures, [])
  let final :=
    if attrStep.1.length = 0 then
      let suggestedStreets := matcher normalizedStreet
      let loop := suggestionLoop env fields (suggestedStreets.take 2)
      (loop.1, suggestedStreets, loop.2)
    else (attrStep.1, [], [])
  { lamps := transformFeaturesToLamps final.1 fields rand
    fieldDiscovery := fields
    suggestedStreets := final.2.1
    deAccentTrace := attrStep.2 ++ final.2.2 }

/-! ## Incident candidate scorer (`reportingService.ts`) -/

/-- `Math.max` on rationals, written computably. -/
def ratMax (a b : Rat) : Rat := if a ≤ b then b else a

/-- `Math.min` on rationals, written computably. -/
def ratMin (a b : Rat) : Rat := if a ≤ b then a else b

/-- A scored incident candidate (the element type of `detectedLamps`). -/
structure Candidate where
  lampId : String
  lampNumber : String
  distance : Rat
  confidence : Rat
  coords : Rat × Rat
deriving DecidableEq, Repr

/-- The result of `analyzeCitizenDescription` consumed by
`identifyLikelyLamps`. -/
structure LocationAnalysis where
  interpretedLocation : String
  addressComponents : List String
  landmarks : List String
  confidence : Rat

/-- The geocoding environment (`GeocodingService.findNearestLamps`): a full
address, the candidate lamps and the search radius give the nearby lamps
with their distances, or a thrown failure. -/
abbrev GeoEnv := String → List Lamp → Rat → Except QueryError (List (Lamp × Rat))

/-- `lamp.lampNumber || 'N/A'`: JavaScript `||` treats `null` and the empty
string as falsy. -/
def lampNumberOrNA (o : Option String) : String :=
  match o with
  | some s => if s = "" then "N/A" else s
  | none => "N/A"

/-- The geocoding loop of `identifyLikelyLamps`: for each address component
geocode `"{interpretedLocation}, {component}"` with a 50 m radius and turn
each nearby lamp into a candidate with confidence
`max(0.1, min(0.9, 1 − distance/100))`; a thrown geocoding failure skips the
component. -/
def geoCandidates (geo : GeoEnv) (analysis : LocationAnalysis)
    (streetLamps : List Lamp) : List Candidate :=
  analysis.addressComponents.flatMap fun comp =>
    match geo (analysis.interpretedLocation ++ ", " ++ comp) streetLamps 50 with
    | .ok nearby =>
      nearby.map fun p =>
        { lampId := p.1.id
          lampNumber := lampNumberOrNA p.1.lampNumber
          distance := p.2
          confidence := ratMax (1/10) (ratMin (9/10) (1 - p.2 / 100))
          coords := p.1.coords }
    | .error _ => []

/-- The duplicate filter
`.filter((item, index, self) => index === self.findIndex(i => i.lampId === item.lampId))`:
keep exactly the first occurrence of every lamp identity, in order.  `seen`
accumulates the identities already kept. -/
def dedupByLampIdGo (seen : List String) : List Candidate → List Candidate
  | [] => []
  | c :: cs =>
    if seen.contains c.lampId then dedupByLampIdGo seen cs
    else c :: dedupByLampIdGo (c.lampId :: seen) cs

/-- Duplicate removal by `lampId`, first occurrence kept. -/
def dedupByLampId (cs : List Candidate) : List Candidate :=
  dedupByLampIdGo [] cs

/-- Stable insertion into a descending-by-confidence list: the inserted
element (earlier in the original order) goes before candidates of equal
confidence. -/
def insertByConfidence (c : Candidate) : List Candidate → List Candidate
  | [] => [c]
  | d :: ds =>
    if c.confidence ≥ d.confidence then c :: d :: ds
    else d :: insertByConfidence c ds

/-- `.sort((a, b) => b.confidence - a.confidence)`: JavaScript `Array.sort`
is stable, and a stable descending sort is unique, so the engine's sort is
modelled by stable insertion sort. -/
def sortByConfidenceDesc : List Candidate → List Candidate
  | [] => []
  | c :: cs => insertByConfidence c (sortByConfidenceDesc cs)

/-- `ReportingService.identifyLikelyLamps`: the geocoded candidates,
deduplicated, sorted descending by confidence and truncated to 3 — or, when
geocoding produced no candidate at all, the degraded fallback of the first
up-to-5 street lamps with decreasing placeholder confidence
`max(0.1, 0.4 − 0.05·index)` and sentinel distance 999. -/
def identifyLikelyLamps (geo : GeoEnv) (analysis : LocationAnalysis)
    (streetLamps : List Lamp) : List Candidate :=
  let candidates := geoCandidates geo analysis streetLamps
  if candidates.length = 0 then
    (streetLamps.take 5).enum.map fun (index, lamp) =>
      { lampId := lamp.id
        lampNumber := lampNumberOrNA lamp.lampNumber
        distance := 999
        confidence := ratMax (1/10) (2/5 - index * (1/20))
        coords := lamp.coords }
  else
    (sortByConfidenceDesc (dedupByLampId candidates)).take 3

/-! ## Concrete instances used by the claim theorems -/

/-- A feature carrying just an `OBJECTID`. -/
def featC1 (n : Int) : ArcGISFeature := ⟨[("OBJECTID", .num n)], .point 17 48⟩

/-- An attribute environment with zero results for the `ulica` filter and
two results for the `nazov_ulice` filter. -/
def envC1 : AttrEnv := fun w _ =>
  if w = likeClause "nazov_ulice" "ruzinovska" then .ok ⟨[featC1 1, featC1 2], false⟩
  else .ok ⟨[], false⟩

/-- The single feature used to fill pages in the pagination scenario. -/
def pageFeature : ArcGISFeature := ⟨[("OBJECTID", .num 1)], .point 17 48⟩

/-- A full page of `maxRecordCount = 1000` features. -/
def fullPage : ArcGISQueryResponse := ⟨List.replicate 1000 pageFeature, false⟩

/-- A server that answers every offset with a full page. -/
def fullPages : Nat → Except QueryError ArcGISQueryResponse :=
  fun _ => .ok fullPage

/-- A page server that always answers with an empty page. -/
def envEmptyPage : Nat → Except QueryError ArcGISQueryResponse :=
  fun _ => .ok ⟨[], false⟩

/-- A gazetteer containing `Studenohorská`. -/
def gazetteerC4 : List BratislavaStreet :=
  [⟨"Ružinovská", normalizeStreetName "Ružinovská"⟩,
   ⟨"Studenohorská", normalizeStreetName "Studenohorská"⟩]

/-- A gazetteer whose fuzzy matches for `"abc"` come back in gazetteer
order with descending edit distance. -/
def gazetteerCtr : List BratislavaStreet :=
  [⟨"Axy", normalizeStreetName "Axy"⟩, ⟨"Abd", normalizeStreetName "Abd"⟩]

/-- A string-typed field matching pattern `street` (index 1). -/
def fieldStreetName : ArcGISField := ⟨"street_name", "esriFieldTypeString", none⟩

/-- A string-typed field matching pattern `ulica` (index 0). -/
def fieldUlica : ArcGISField := ⟨"ulica", "esriFieldTypeString", none⟩

/-- A lamp used in the incident-scorer scenarios. -/
def lampA : Lamp := ⟨"A", some "L1", (17, 48), []⟩

/-- Six distinct lamps on one street. -/
def lampsC3 : List Lamp :=
  [⟨"0", some "N0", (17, 48), []⟩, ⟨"1", some "N1", (17, 48), []⟩,
   ⟨"2", some "N2", (17, 48), []⟩, ⟨"3", some "N3", (17, 48), []⟩,
   ⟨"4", some "N4", (17, 48), []⟩, ⟨"5", some "N5", (17, 48), []⟩]

/-- A geocoder that locates lamp `A` at 50 m for the first address
component and at 10 m for the second. -/
def geoC3 : GeoEnv := fun addr _ _ =>
  if addr = "loc, c1" then .ok [(lampA, 50)]
  else if addr = "loc, c2" then .ok [(lampA, 10)]
  else .ok []

/-- An analysis with two address components. -/
def analysisC3 : LocationAnalysis := ⟨"loc", ["c1", "c2"], [], 1⟩

/-- A geocoder that never finds anything. -/
def geoNoneEnv : GeoEnv := fun _ _ _ => .ok []

/-- An analysis with no address components (forces the degraded fallback). -/
def analysisNoComponents : LocationAnalysis := ⟨"loc", [], [], 1⟩

/-- A one-street-field schema. -/
def schemaC8 : FieldDiscovery := ⟨["ulica"], ["OBJECTID"], [], 0⟩

/-- An attribute environment whose every query succeeds with zero features. -/
def envOkEmpty : AttrEnv := fun _ _ => .ok ⟨[], false⟩

/-- A spatial environment whose every query succeeds with zero features. -/
def spatialOkEmpty : SpatialEnv := fun _ _ _ _ => .ok ⟨[], false⟩

/-- An attribute environment whose every query fails. -/
def envErr : AttrEnv := fun _ _ => .error ⟨none⟩

/-- A spatial environment whose every query fails. -/
def spatialErr : SpatialEnv := fun _ _ _ _ => .error ⟨none⟩

/-- A matcher suggesting a single street that carries diacritics. -/
def matcherC8 : String → List String := fun _ => ["Studenohorská"]

/-- A request whose street name carries diacritics, without coordinates. -/
def requestC8 : LampSearchRequest := ⟨"Ružinovská", none, none⟩

/-- A schema whose lamp-id field is `cislo_stlp`. -/
def schemaC10 : FieldDiscovery := ⟨["ulica"], ["cislo_stlp"], [], 0⟩

/-! ## Helper lemmas -/

/-- `find?` is the head of `filter`. -/
theorem find?_eq_head?_filter (p : α → Bool) (l : List α) :
    l.find? p = (l.filter p).head? := by
  induction l with
  | nil => rfl
  | cons x xs ih =>
    cases hx : p x
    · rw [List.find?_cons, List.filter_cons, hx, ih]
      simp
    · rw [List.find?_cons, List.filter_cons, hx]
      simp

/-- The inner pattern loop of `identifyStreetFields` accepts a field exactly
when the field is string-typed and some pattern matches its name or alias. -/
theorem streetFieldAccept_iff (field : ArcGISField) (ps : List String) :
    streetFieldAccept field ps =
      (field.type = "esriFieldTypeString" && ps.any (fieldMatchesPattern field)) := by
  induction ps with
  | nil => simp [streetFieldAccept]
  | cons p ps ih =>
    rw [streetFieldAccept, ih, List.any_cons]
    by_cases hm : fieldMatchesPattern field p
    · by_cases ht : field.type = "esriFieldTypeString"
      · simp [hm, ht]
      · simp [hm, ht]
    · simp only [Bool.not_eq_true] at hm
      simp [hm]

/-- One unfolding of the pagination loop: a failing page-fetch surfaces. -/
theorem queryAllGo_error (respond : Nat → Except QueryError ArcGISQueryResponse)
    (offset : Nat) (acc : List ArcGISFeature) (e : QueryError)
    (hresp : respond offset = .error e) :
    queryAllGo respond offset acc = (.error e, [offset]) := by
  rw [queryAllGo, hresp]

/-- One unfolding of the pagination loop: the loop returns the accumulated
features when the continuation condition fails. -/
theorem queryAllGo_stop (respond : Nat → Except QueryError ArcGISQueryResponse)
    (offset : Nat) (acc : List ArcGISFeature) (page : ArcGISQueryResponse)
    (hresp : respond offset = .ok page)
    (hstop : ¬(0 < page.features.length ∧
      (page.exceededTransferLimit = true ∨ page.features.length = maxRecordCount) ∧
      (acc ++ page.features).length ≤ 5000)) :
    queryAllGo respond offset acc = (.ok (acc ++ page.features), [offset]) := by
  rw [queryAllGo, hresp]
  dsimp only
  rw [dif_neg hstop]

/-- One unfolding of the pagination loop: the loop queries the next offset
when the page is non-empty, signals more data, and the ceiling is not
exceeded. -/
theorem queryAllGo_continue (respond : Nat → Except QueryError ArcGISQueryResponse)
    (offset : Nat) (acc : List ArcGISFeature) (page : ArcGISQueryResponse)
    (hresp : respond offset = .ok page)
    (h1 : 0 < page.features.length)
    (h2 : page.exceededTransferLimit = true ∨ page.features.length = maxRecordCount)
    (h3 : (acc ++ page.features).length ≤ 5000) :
    queryAllGo respond offset acc =
      ((queryAllGo respond (offset + page.features.length) (acc ++ page.features)).1,
       offset :: (queryAllGo respond (offset + page.features.length) (acc ++ page.features)).2) := by
  rw [queryAllGo, hresp]
  dsimp only
  rw [dif_pos ⟨h1, h2, h3⟩]

/-- A query whose first page is short and unflagged returns exactly that
page's features. -/
theorem caughtQuery_single (env : AttrEnv) (w : String) (page : ArcGISQueryResponse)
    (hresp : env w 0 = .ok page)
    (hshort : page.features.length < maxRecordCount)
    (hflag : page.exceededTransferLimit = false) :
    caughtQuery env w = page.features := by
  rw [caughtQuery, queryAll,
    queryAllGo_stop (env w) 0 [] page hresp ?stop]
  · simp
  case stop =>
    rintro ⟨-, h2, -⟩
    rcases h2 with h2 | h2
    · rw [hflag] at h2; exact Bool.false_ne_true h2
    · omega

/-- A query whose first page-fetch fails is caught as zero features. -/
theorem caughtQuery_error (env : AttrEnv) (w : String) (e : QueryError)
    (hresp : env w 0 = .error e) :
    caughtQuery env w = [] := by
  rw [caughtQuery, queryAll, queryAllGo_error (env w) 0 [] e hresp]

/-- The per-field loop when every field's query yields no feature. -/
theorem tryStreetVariantsGo_all_empty (env : AttrEnv) (street : String)
    (fields : List String)
    (h : ∀ g ∈ fields, caughtQuery env (likeClause g street) = []) :
    tryStreetVariantsGo env street fields =
      ([], fields.map fun g => likeClause g street) := by
  induction fields with
  | nil => rfl
  | cons f rest ih =>
    have hf := h f (by simp)
    rw [tryStreetVariantsGo]
    simp only [hf, List.length_nil, gt_iff_lt, lt_self_iff_false, if_false]
    rw [ih fun g hg => h g (List.mem_cons_of_mem f hg)]
    simp

/-- The per-field loop stops at the first field whose query yields a
feature, having issued exactly the clauses up to that field. -/
theorem tryStreetVariantsGo_first_success (env : AttrEnv) (street : String)
    (pre : List String) (f : String) (rest : List String)
    (hpre : ∀ g ∈ pre, caughtQuery env (likeClause g street) = [])
    (hf : caughtQuery env (likeClause f street) ≠ []) :
    tryStreetVariantsGo env street (pre ++ f :: rest) =
      (caughtQuery env (likeClause f street),
       (pre ++ [f]).map fun g => likeClause g street) := by
  induction pre with
  | nil =>
    rw [List.nil_append, tryStreetVariantsGo]
    have : 0 < (caughtQuery env (likeClause f street)).length :=
      List.length_pos.mpr hf
    simp [this]
  | cons g pre ih =>
    have hg := hpre g (by simp)
    rw [List.cons_append, tryStreetVariantsGo]
    simp only [hg, List.length_nil, gt_iff_lt, lt_self_iff_false, if_false]
    rw [ih fun x hx => hpre x (List.mem_cons_of_mem g hx)]
    simp

/-- `tryStreetVariants` returns the first field's non-empty result, issuing
exactly the clauses up to and including that field. -/
theorem tryStreetVariants_first_success (env : AttrEnv) (street : String)
    (pre : List String) (f : String) (rest : List String)
    (hpre : ∀ g ∈ pre, caughtQuery env (likeClause g street) = [])
    (hf : caughtQuery env (likeClause f street) ≠ []) :
    tryStreetVariants env street (pre ++ f :: rest) =
      (caughtQuery env (likeClause f street),
       (pre ++ [f]).map fun g => likeClause g street) := by
  rw [tryStreetVariants,
    tryStreetVariantsGo_first_success env street pre f rest hpre hf]
  simp [List.length_pos.mpr hf]

/-- When no per-field query yields a feature and more than one street field
exists, `tryStreetVariants` issues the combined OR query last and returns
its outcome. -/
theorem tryStreetVariants_combined (env : AttrEnv) (street : String)
    (fields : List String)
    (h : ∀ g ∈ fields, caughtQuery env (likeClause g street) = [])
    (hlen : 1 < fields.length) :
    tryStreetVariants env street fields =
      (caughtQuery env (combinedWhereClause fields street),
       (fields.map fun g => likeClause g street) ++
         [combinedWhereClause fields street]) := by
  rw [tryStreetVariants, tryStreetVariantsGo_all_empty env street fields h]
  simp [hlen]

/-- When no per-field query yields a feature and at most one street field
exists, `tryStreetVariants` returns empty without a combined query. -/
theorem tryStreetVariants_single_empty (env : AttrEnv) (street : String)
    (fields : List String)
    (h : ∀ g ∈ fields, caughtQuery env (likeClause g street) = [])
    (hlen : ¬1 < fields.length) :
    tryStreetVariants env street fields =
      ([], fields.map fun g => likeClause g street) := by
  rw [tryStreetVariants, tryStreetVariantsGo_all_empty env street fields h]
  simp [hlen]

/-- Under an environment where every query yields no feature, the whole
per-field/combined step yields no feature. -/
theorem tryStreetVariants_fst_empty (env : AttrEnv) (street : String)
    (fields : List String) (hall : ∀ w, caughtQuery env w = []) :
    (tryStreetVariants env street fields).1 = [] := by
  by_cases hlen : 1 < fields.length
  · rw [tryStreetVariants_combined env street fields (fun g _ => hall _) hlen]
    exact hall _
  · rw [tryStreetVariants_single_empty env street fields (fun g _ => hall _) hlen]

/-- The de-accent ghost trace of one `searchByStreetAttribute` call: empty,
or the single pair recording the de-accented retry, which happens only when
the direct variants found nothing and stripping diacritics changes the
string. -/
theorem searchByStreetAttribute_trace (env : AttrEnv) (fields : FieldDiscovery)
    (street : String) :
    (searchByStreetAttribute env fields street).2 = [] ∨
    ((searchByStreetAttribute env fields street).2 =
        [(street, removeDiacritics street)] ∧
      removeDiacritics street ≠ street ∧
      (tryStreetVariants env street fields.streetFields).1 = []) := by
  rw [searchByStreetAttribute]
  by_cases h1 : (tryStreetVariants env street fields.streetFields).1.length = 0
  · by_cases h2 : removeDiacritics street ≠ street
    · right
      refine ⟨?_, h2, List.length_eq_zero.mp h1⟩
      simp [h1, h2]
    · left; simp [h1, h2]
  · left; simp [h1]

/-- Under an all-empty environment, `searchByStreetAttribute` yields no
feature. -/
theorem searchByStreetAttribute_fst_empty (env : AttrEnv)
    (fields : FieldDiscovery) (street : String)
    (hall : ∀ w, caughtQuery env w = []) :
    (searchByStreetAttribute env fields street).1 = [] := by
  rw [searchByStreetAttribute]
  simp only [tryStreetVariants_fst_empty env _ _ hall]
  by_cases h2 : removeDiacritics street ≠ street
  · simp [h2, tryStreetVariants_fst_empty env _ _ hall]
  · simp [h2]

/-- Under an all-empty environment, the suggestion loop yields no feature. -/
theorem suggestionLoop_fst_empty (env : AttrEnv) (fields : FieldDiscovery)
    (l : List String) (hall : ∀ w, caughtQuery env w = []) :
    (suggestionLoop env fields l).1 = [] := by
  induction l with
  | nil => rfl
  | cons s rest ih =>
    rw [suggestionLoop]
    simp [searchByStreetAttribute_fst_empty env fields s hall, ih]

/-- The de-accent trace of one `searchByStreetAttribute` call has at most
one entry. -/
theorem searchByStreetAttribute_trace_length (env : AttrEnv)
    (fields : FieldDiscovery) (street : String) :
    (searchByStreetAttribute env fields street).2.length ≤ 1 := by
  rcases searchByStreetAttribute_trace env fields street with h | ⟨h, -, -⟩ <;>
    simp [h]

/-- The suggestion loop accumulates at most one de-accent per suggestion. -/
theorem suggestionLoop_trace_length (env : AttrEnv) (fields : FieldDiscovery)
    (l : List String) :
    (suggestionLoop env fields l).2.length ≤ l.length := by
  induction l with
  | nil => simp [suggestionLoop]
  | cons s rest ih =>
    rw [suggestionLoop]
    by_cases h : 0 < (searchByStreetAttribute env fields s).1.length
    · simpa [h] using
        le_trans (searchByStreetAttribute_trace_length env fields s) (by omega)
    · have hb := searchByStreetAttribute_trace_length env fields s
      simp only [h, if_false, List.length_append, List.length_cons]
      omega

/-! ## Claim theorems -/

/-- C1: In the query cascade's attribute search, for each discovered street
field in discovery order a case-insensitive substring query is issued, and
the search returns the features of the first field that yields any feature;
the combined OR-across-all-fields query is issued only when more than one
street field exists and every per-field query returned nothing.  In
particular, for a schema with street fields `[ulica, nazov_ulice]` and an
input yielding zero results for `ulica` but two for `nazov_ulice`, exactly
those two records are returned without the combined-OR step being
attempted. -/
theorem C1_per_field_cascade :
    (∀ (env : AttrEnv) (street : String) (pre : List String) (f : String)
       (rest : List String),
      (∀ g ∈ pre, caughtQuery env (likeClause g street) = []) →
      caughtQuery env (likeClause f street) ≠ [] →
      tryStreetVariants env street (pre ++ f :: rest) =
        (caughtQuery env (likeClause f street),
         (pre ++ [f]).map fun g => likeClause g street)) ∧
    (∀ (env : AttrEnv) (street : String) (fields : List String),
      (∀ g ∈ fields, caughtQuery env (likeClause g street) = []) →
      1 < fields.length →
      tryStreetVariants env street fields =
        (caughtQuery env (combinedWhereClause fields street),
         (fields.map fun g => likeClause g street) ++
           [combinedWhereClause fields street])) ∧
    (∀ (env : AttrEnv) (street : String) (fields : List String),
      (∀ g ∈ fields, caughtQuery env (likeClause g street) = []) →
      ¬1 < fields.length →
      tryStreetVariants env street fields =
        ([], fields.map fun g => likeClause g street)) ∧
    (tryStreetVariants envC1 "ruzinovska" ["ulica", "nazov_ulice"] =
       ([featC1 1, featC1 2],
        [likeClause "ulica" "ruzinovska", likeClause "nazov_ulice" "ruzinovska"]) ∧
     combinedWhereClause ["ulica", "nazov_ulice"] "ruzinovska" ∉
       [likeClause "ulica" "ruzinovska", likeClause "nazov_ulice" "ruzinovska"]) := by
  refine ⟨tryStreetVariants_first_success, tryStreetVariants_combined,
    tryStreetVariants_single_empty, ?_, by decide⟩
  have hU : caughtQuery envC1 (likeClause "ulica" "ruzinovska") = [] :=
    caughtQuery_single envC1 _ ⟨[], false⟩ rfl (by decide) rfl
  have hN : caughtQuery envC1 (likeClause "nazov_ulice" "ruzinovska") =
      [featC1 1, featC1 2] :=
    caughtQuery_single envC1 _ ⟨[featC1 1, featC1 2], false⟩ rfl (by decide) rfl
  have happ := tryStreetVariants_first_success envC1 "ruzinovska" ["ulica"]
    "nazov_ulice" []
    (by intro g hg; simp only [List.mem_singleton] at hg; rw [hg]; exact hU)
    (by rw [hN]; simp)
  rw [hN] at happ
  simpa using happ

/-- Witness for C1 at the concrete two-field schema. -/
theorem C1_witness :
    tryStreetVariants envC1 "ruzinovska" (["ulica"] ++ "nazov_ulice" :: []) =
      (caughtQuery envC1 (likeClause "nazov_ulice" "ruzinovska"),
       (["ulica"] ++ ["nazov_ulice"]).map fun g => likeClause g "ruzinovska") := by
  apply C1_per_field_cascade.1 envC1 "ruzinovska" ["ulica"] "nazov_ulice" []
  · intro g hg
    simp only [List.mem_singleton] at hg
    rw [hg]
    exact caughtQuery_single envC1 _ ⟨[], false⟩ rfl (by decide) rfl
  · rw [caughtQuery_single envC1 (likeClause "nazov_ulice" "ruzinovska")
      ⟨[featC1 1, featC1 2], false⟩ rfl (by decide) rfl]
    simp

/-- C2: For every remote query, the transport retries transient failures up
to 3 total attempts (2 retries) with exponential backoff delay
`base * 2^(attempt-1)` before surfacing the last underlying error, while a
bad-request-class response (HTTP 400) is surfaced immediately after exactly
one attempt with no retry and no backoff sleep. -/
theorem C2_retry_policy :
    (∀ (α : Type) (respond : Nat → Except QueryError α) (e : QueryError),
      respond 0 = .error e → e.status = some 400 →
      executeWithRetry respond maxRetries = (.error e, 1, [])) ∧
    (∀ (α : Type) (respond : Nat → Except QueryError α) (e0 e1 : QueryError)
       (v : α),
      respond 0 = .error e0 → e0.status ≠ some 400 →
      respond 1 = .error e1 → e1.status ≠ some 400 →
      respond 2 = .ok v →
      executeWithRetry respond maxRetries =
        (.ok v, 3, [retryDelayMs * 2 ^ 0, retryDelayMs * 2 ^ 1])) ∧
    (∀ (α : Type) (respond : Nat → Except QueryError α) (e0 e1 e2 : QueryError),
      respond 0 = .error e0 → e0.status ≠ some 400 →
      respond 1 = .error e1 → e1.status ≠ some 400 →
      respond 2 = .error e2 → e2.status ≠ some 400 →
      executeWithRetry respond maxRetries =
        (.error e2, 3, [retryDelayMs * 2 ^ 0, retryDelayMs * 2 ^ 1])) := by
  refine ⟨?_, ?_, ?_⟩
  · intro α respond e h0 h400
    simp [executeWithRetry, executeWithRetryGo, maxRetries, h0, h400]
  · intro α respond e0 e1 v h0 hn0 h1 hn1 h2
    simp [executeWithRetry, executeWithRetryGo, maxRetries, h0, hn0, h1, hn1, h2,
      retryDelayMs]
  · intro α respond e0 e1 e2 h0 hn0 h1 hn1 h2 hn2
    simp [executeWithRetry, executeWithRetryGo, maxRetries, h0, hn0, h1, hn1, h2, hn2,
      retryDelayMs]

/-- Witness for C2: an always-400 transport is surfaced after one attempt; a
transport failing twice then succeeding returns the success on the third
attempt after two increasing backoff sleeps; an always-failing transient
transport surfaces its last error after three attempts. -/
theorem C2_witness :
    executeWithRetry (fun _ => (.error ⟨some 400⟩ : Except QueryError Nat))
        maxRetries = (.error ⟨some 400⟩, 1, []) ∧
    executeWithRetry
        (fun a => if a < 2 then (.error ⟨some 500⟩ : Except QueryError Nat)
                  else .ok 42) maxRetries =
      (.ok 42, 3, [retryDelayMs * 2 ^ 0, retryDelayMs * 2 ^ 1]) ∧
    executeWithRetry (fun _ => (.error ⟨none⟩ : Except QueryError Nat))
        maxRetries =
      (.error ⟨none⟩, 3, [retryDelayMs * 2 ^ 0, retryDelayMs * 2 ^ 1]) :=
  ⟨C2_retry_policy.1 Nat _ ⟨some 400⟩ rfl rfl,
   C2_retry_policy.2.1 Nat _ ⟨some 500⟩ ⟨some 500⟩ 42 rfl (by simp) rfl (by simp) rfl,
   C2_retry_policy.2.2 Nat _ ⟨none⟩ ⟨none⟩ ⟨none⟩ rfl (by simp) rfl (by simp) rfl
     (by simp)⟩

/-- `identifyStreetFields` never returns an empty list. -/
theorem identifyStreetFields_ne_nil (fields : List ArcGISField) :
    identifyStreetFields fields ≠ [] := by
  rw [identifyStreetFields]
  split_ifs with h
  · exact List.length_pos.mp h
  · simp

/-- `identifyLampIdFields` never returns an empty list. -/
theorem identifyLampIdFields_ne_nil (fields : List ArcGISField) :
    identifyLampIdFields fields ≠ [] := by
  rw [identifyLampIdFields]
  split_ifs with h
  · simp
  · exact fun hnil => h (by simp [hnil])

/-- C5: Schema discovery's `discover(forceRefresh)` never raises to the
caller: on fetch failure it returns the last good cached schema if one
exists, else the fixed hardcoded default schema; and every returned schema
has non-empty `streetFields` and `lampIdFields` lists, falling back to the
single default `ulica` when no street field qualifies and to `OBJECTID`
when no lamp-id field qualifies.  (`discoverFields` is a total function of
its cache and fetch outcome: every failure path is handled.) -/
theorem C5_discovery_safe :
    ∀ (cached : Option FieldDiscovery)
      (fetchResult : Except QueryError (List ArcGISField))
      (forceRefresh : Bool) (now : Nat),
      (∀ c ∈ cached, c.streetFields ≠ [] ∧ c.lampIdFields ≠ []) →
      ((discoverFields cached fetchResult forceRefresh now).streetFields ≠ [] ∧
       (discoverFields cached fetchResult forceRefresh now).lampIdFields ≠ []) ∧
      (∀ e, fetchResult = .error e →
        discoverFields cached fetchResult forceRefresh now =
          cached.getD (defaultDiscovery now)) ∧
      (∀ fields : List ArcGISField,
        (∀ f ∈ fields, streetFieldAccept f streetFieldPatterns = false) →
        identifyStreetFields fields = ["ulica"]) ∧
      (∀ fields : List ArcGISField,
        (∀ f ∈ fields, lampIdFieldAccept f = false) →
        identifyLampIdFields fields = ["OBJECTID"]) := by
  intro cached fetchResult forceRefresh now hc
  refine ⟨?_, ?_, ?_, ?_⟩
  · rw [discoverFields.eq_def]
    split_ifs with hcache
    · rcases hcache with ⟨-, hsome, -⟩
      cases cached with
      | none => simp at hsome
      | some c => exact hc c rfl
    · cases fetchResult with
      | ok fields =>
        exact ⟨identifyStreetFields_ne_nil fields, identifyLampIdFields_ne_nil fields⟩
      | error e =>
        cases cached with
        | none => simp [defaultDiscovery]
        | some c => exact hc c rfl
  · intro e he
    subst he
    rw [discoverFields.eq_def]
    split_ifs with hcache
    · rcases hcache with ⟨-, hsome, -⟩
      cases cached with
      | none => simp at hsome
      | some c => rfl
    · cases cached with
      | none => rfl
      | some c => rfl
  · intro fields hnone
    rw [identifyStreetFields]
    have hnil : (fields.filterMap fun field =>
        if streetFieldAccept field streetFieldPatterns then some field.name
        else none) = [] := by
      rw [List.filterMap_eq_nil_iff]
      intro f hf
      rw [hnone f hf]
      simp
    simp [hnil]
  · intro fields hnone
    rw [identifyLampIdFields]
    have hnil : (fields.filterMap fun field =>
        if lampIdFieldAccept field then some field.name else none) = [] := by
      rw [List.filterMap_eq_nil_iff]
      intro f hf
      rw [hnone f hf]
      simp
    simp [hnil]

/-- Witness for C5 at the empty cache and a failing fetch. -/
theorem C5_witness :
    ((discoverFields none (.error ⟨none⟩) false 0).streetFields ≠ [] ∧
     (discoverFields none (.error ⟨none⟩) false 0).lampIdFields ≠ []) ∧
    discoverFields none (.error ⟨none⟩) false 0 =
      (none : Option FieldDiscovery).getD (defaultDiscovery 0) ∧
    identifyStreetFields [] = ["ulica"] ∧
    identifyLampIdFields [] = ["OBJECTID"] := by
  have h := C5_discovery_safe none (.error ⟨none⟩) false 0 (by simp)
  exact ⟨h.1, h.2.1 ⟨none⟩ rfl, h.2.2.1 [] (by simp), h.2.2.2 [] (by simp)⟩

/-- C6 counterexample: the returned street-field list follows the layer's
field order, not pattern-list order.  `street_name` (first matching pattern
`street`, index 1) precedes `ulica` (first matching pattern `ulica`,
index 0) in the output because it comes first in the field list. -/
theorem C6_counterexample :
    identifyStreetFields [fieldStreetName, fieldUlica] = ["street_name", "ulica"] ∧
    (streetFieldPatterns.findIdx? fun p => fieldMatchesPattern fieldStreetName p)
      = some 1 ∧
    (streetFieldPatterns.findIdx? fun p => fieldMatchesPattern fieldUlica p)
      = some 0 := by decide

/-- `filterMap` with an if-some-else-none function is filter-then-map. -/
theorem filterMap_ite (p : α → Bool) (g : α → β) (l : List α) :
    (l.filterMap fun a => if p a then some (g a) else none) =
      (l.filter p).map g := by
  induction l with
  | nil => rfl
  | cons a l ih =>
    by_cases h : p a <;> simp [List.filterMap_cons, List.filter_cons, h, ih]

/-- C6 (amended): a field qualifies as a street field iff its name or alias
contains one of the fixed patterns case-insensitively and its declared type
is string-like; the returned list follows the input field-list order (not
pattern-list order), with the first matching pattern winning per field and
each field occurrence contributing at most one entry; `ulica` is the
fallback when nothing qualifies. -/
theorem C6_street_fields_amended (fields : List ArcGISField) :
    identifyStreetFields fields =
      (if (fields.filter fun f =>
            f.type = "esriFieldTypeString" &&
            streetFieldPatterns.any (fieldMatchesPattern f)).map (·.name) = []
       then ["ulica"]
       else (fields.filter fun f =>
            f.type = "esriFieldTypeString" &&
            streetFieldPatterns.any (fieldMatchesPattern f)).map (·.name)) := by
  rw [identifyStreetFields]
  have hfm : (fields.filterMap fun field =>
      if streetFieldAccept field streetFieldPatterns then some field.name
      else none) =
      (fields.filter fun f =>
        f.type = "esriFieldTypeString" &&
        streetFieldPatterns.any (fieldMatchesPattern f)).map (·.name) := by
    rw [← filterMap_ite]
    simp only [streetFieldAccept_iff]
  rw [hfm]
  split_ifs with h1 h2 h3
  · exfalso
    simp only [List.map_eq_nil_iff] at h2
    rw [h2] at h1
    simp at h1
  · rfl
  · rfl
  · exfalso
    simp only [Nat.not_lt, Nat.le_zero, List.length_eq_zero] at h1
    rw [h1] at h3
    simp at h3

/-- C7 counterexample: against a server answering every offset with a full
page of 1000 features, the pagination loop queries offset 5000 after 5000
features are already accumulated, and returns 6000 features — it does not
stop when the 5,000 ceiling is *reached*, only once it is exceeded. -/
theorem C7_counterexample :
    (queryAll fullPages).1 = Except.ok (List.replicate 6000 pageFeature) ∧
    (List.replicate 6000 pageFeature).length = 6000 ∧
    (queryAll fullPages).2 = [0, 1000, 2000, 3000, 4000, 5000] := by
  have step : ∀ offset n : Nat, n + 1000 ≤ 5000 →
      queryAllGo fullPages offset (List.replicate n pageFeature) =
        ((queryAllGo fullPages (offset + 1000)
            (List.replicate (n + 1000) pageFeature)).1,
         offset :: (queryAllGo fullPages (offset + 1000)
            (List.replicate (n + 1000) pageFeature)).2) := by
    intro offset n h
    have hc := queryAllGo_continue fullPages offset (List.replicate n pageFeature)
      fullPage rfl
      (by simp only [fullPage]; rw [List.length_replicate]; omega)
      (Or.inr (by simp only [fullPage]; rw [List.length_replicate, maxRecordCount]))
      (by simp only [fullPage, List.length_append, List.length_replicate]; omega)
    simpa only [fullPage, ← List.replicate_add, List.length_replicate] using hc
  have last : queryAllGo fullPages 5000 (List.replicate 5000 pageFeature) =
      (.ok (List.replicate 6000 pageFeature), [5000]) := by
    have hs := queryAllGo_stop fullPages 5000 (List.replicate 5000 pageFeature)
      fullPage rfl
      (by
        rintro ⟨-, -, hc⟩
        simp only [fullPage, List.length_append, List.length_replicate] at hc
        omega)
    simpa only [fullPage, ← List.replicate_add] using hs
  have h0 := step 0 0 (by omega)
  have h1 := step 1000 1000 (by omega)
  have h2 := step 2000 2000 (by omega)
  have h3 := step 3000 3000 (by omega)
  have h4 := step 4000 4000 (by omega)
  norm_num at h0 h1 h2 h3 h4
  have hchain : queryAllGo fullPages 0 ([] : List ArcGISFeature) =
      (.ok (List.replicate 6000 pageFeature), [0, 1000, 2000, 3000, 4000, 5000]) := by
    rw [show ([] : List ArcGISFeature) = List.replicate 0 pageFeature from rfl] at h0
    norm_num at h0
    rw [h0, h1, h2, h3, h4, last]
  refine ⟨?_, by rw [List.length_replicate], ?_⟩ <;> rw [queryAll, hchain]

/-- C7 (amended): `queryAll` continues to the next offset only while the
page signals more data (the explicit exceeded-transfer-limit flag or a full
page of `maxRecordCount` features) and the accumulated features do not
exceed the 5,000 safety ceiling; it stops when a page is short or empty, or
once the accumulated features exceed 5,000 (the check runs after
accumulating the page, so at exactly 5,000 it continues); exceeding the
ceiling still yields a successful result, not an error. -/
theorem C7_pagination_amended :
    (∀ (respond : Nat → Except QueryError ArcGISQueryResponse) (offset : Nat)
       (acc : List ArcGISFeature) (page : ArcGISQueryResponse),
      respond offset = .ok page →
      ¬(0 < page.features.length ∧
        (page.exceededTransferLimit = true ∨ page.features.length = maxRecordCount)) →
      queryAllGo respond offset acc = (.ok (acc ++ page.features), [offset])) ∧
    (∀ (respond : Nat → Except QueryError ArcGISQueryResponse) (offset : Nat)
       (acc : List ArcGISFeature) (page : ArcGISQueryResponse),
      respond offset = .ok page →
      5000 < (acc ++ page.features).length →
      queryAllGo respond offset acc = (.ok (acc ++ page.features), [offset])) ∧
    (∀ (respond : Nat → Except QueryError ArcGISQueryResponse) (offset : Nat)
       (acc : List ArcGISFeature) (page : ArcGISQueryResponse),
      respond offset = .ok page →
      0 < page.features.length →
      (page.exceededTransferLimit = true ∨ page.features.length = maxRecordCount) →
      (acc ++ page.features).length ≤ 5000 →
      queryAllGo respond offset acc =
        ((queryAllGo respond (offset + page.features.length) (acc ++ page.features)).1,
         offset :: (queryAllGo respond (offset + page.features.length)
           (acc ++ page.features)).2)) := by
  refine ⟨?_, ?_, queryAllGo_continue⟩
  · intro respond offset acc page hresp hstop
    exact queryAllGo_stop respond offset acc page hresp fun ⟨ha, hb, _⟩ => hstop ⟨ha, hb⟩
  · intro respond offset acc page hresp hceil
    exact queryAllGo_stop respond offset acc page hresp fun ⟨_, _, hc⟩ => by omega

/-- Witness for C7: an empty first page stops immediately; a 1000-feature
page on top of 5000 accumulated features stops with a success; a full page
with room continues to offset 1000. -/
theorem C7_witness :
    queryAllGo envEmptyPage 0 [] = (.ok ([] ++ ([] : List ArcGISFeature)), [0]) ∧
    queryAllGo fullPages 0 (List.replicate 5000 pageFeature) =
      (.ok (List.replicate 5000 pageFeature ++ fullPage.features), [0]) ∧
    queryAllGo fullPages 0 [] =
      ((queryAllGo fullPages (0 + fullPage.features.length)
          ([] ++ fullPage.features)).1,
       0 :: (queryAllGo fullPages (0 + fullPage.features.length)
          ([] ++ fullPage.features)).2) :=
  ⟨C7_pagination_amended.1 envEmptyPage 0 [] ⟨[], false⟩ rfl
     (by rintro ⟨h, -⟩; simp at h),
   C7_pagination_amended.2.1 fullPages 0 (List.replicate 5000 pageFeature)
     fullPage rfl
     (by simp only [fullPage, List.length_append, List.length_replicate]; omega),
   C7_pagination_amended.2.2 fullPages 0 [] fullPage
     rfl (by simp only [fullPage]; rw [List.length_replicate]; omega)
     (Or.inr (by simp only [fullPage]; rw [List.length_replicate, maxRecordCount]))
     (by simp only [fullPage, List.nil_append, List.length_replicate]; omega)⟩

set_option maxRecDepth 10000 in
/-- C4 counterexample: the fuzzy tier does not order its results by
ascending edit distance — it keeps gazetteer order.  For input `abc` the
gazetteer `[Axy, Abd]` yields fuzzy matches in that order although `Axy`
has distance 2 and `Abd` distance 1. -/
theorem C4_counterexample :
    findBestMatch gazetteerCtr "abc" =
      [⟨"Axy", normalizeStreetName "Axy"⟩, ⟨"Abd", normalizeStreetName "Abd"⟩] ∧
    levenshteinDistance (normalizeStreetName "Axy") (normalizeStreetName "abc") = 2 ∧
    levenshteinDistance (normalizeStreetName "Abd") (normalizeStreetName "abc") = 1 ∧
    ¬ (findBestMatch gazetteerCtr "abc").Pairwise (fun a b =>
        levenshteinDistance a.normalized (normalizeStreetName "abc") ≤
        levenshteinDistance b.normalized (normalizeStreetName "abc")) := by decide

set_option maxRecDepth 10000 in
/-- C4 (amended): `findBestMatch` proceeds in order with the first
non-empty tier winning — (a) exact normalized equality, one result; (b)
bidirectional substring containment capped to 5 results; (c) Levenshtein
edit distance bounded by `max(2, floor(0.3 * len(normalizedInput)))`,
capped to 3 results *in gazetteer order*, not re-ordered by distance.  In
particular `Studeno Horska` against a gazetteer containing `Studenohorská`
returns that entry via the fuzzy tier, its distance 1 being within the
threshold. -/
theorem C4_matcher_amended :
    (∀ (allStreets : List BratislavaStreet) (userInput : String),
      findBestMatch allStreets userInput =
        (if (allStreets.filter fun s =>
              s.normalized = normalizeStreetName userInput) ≠ [] then
           (allStreets.filter fun s =>
              s.normalized = normalizeStreetName userInput).take 1
         else if (allStreets.filter fun s =>
              jsIncludes s.normalized (normalizeStreetName userInput) ||
              jsIncludes (normalizeStreetName userInput) s.normalized) ≠ [] then
           (allStreets.filter fun s =>
              jsIncludes s.normalized (normalizeStreetName userInput) ||
              jsIncludes (normalizeStreetName userInput) s.normalized).take 5
         else
           (allStreets.filter fun s =>
              levenshteinDistance s.normalized (normalizeStreetName userInput) ≤
                max 2 ((normalizeStreetName userInput).length * 3 / 10)).take 3)) ∧
    findBestMatch gazetteerC4 "Studeno Horska" =
      [⟨"Studenohorská", normalizeStreetName "Studenohorská"⟩] := by
  constructor
  · intro allStreets userInput
    rcases hfind : allStreets.find?
        (fun street => street.normalized = normalizeStreetName userInput) with _ | e
    · have hfilter : (allStreets.filter fun s =>
          s.normalized = normalizeStreetName userInput) = [] := by
        have hh := find?_eq_head?_filter
          (fun s => decide (s.normalized = normalizeStreetName userInput)) allStreets
        rw [hfind] at hh
        rcases hq : allStreets.filter
            (fun s => decide (s.normalized = normalizeStreetName userInput)) with _ | _
        · exact hq
        · rw [hq] at hh; simp at hh
      rw [findBestMatch, hfind]
      dsimp only
      rw [if_neg (not_not_intro hfilter)]
      by_cases hp : (allStreets.filter fun s =>
          jsIncludes s.normalized (normalizeStreetName userInput) ||
          jsIncludes (normalizeStreetName userInput) s.normalized) = []
      · rw [if_neg (not_not_intro hp), hp]
        simp only [List.take_nil, List.length_nil]
        rw [if_neg (by omega)]
      · rw [if_pos hp]
        have htake : (allStreets.filter fun s =>
            jsIncludes s.normalized (normalizeStreetName userInput) ||
            jsIncludes (normalizeStreetName userInput) s.normalized).take 5 ≠ [] := by
          intro hnil
          rcases List.take_eq_nil_iff.mp hnil with h5 | hfil
          · omega
          · exact hp hfil
        rw [if_pos (List.length_pos.mpr htake)]
    · have hh := find?_eq_head?_filter
        (fun s => decide (s.normalized = normalizeStreetName userInput)) allStreets
      rw [hfind] at hh
      rcases hfil : allStreets.filter
          (fun s => decide (s.normalized = normalizeStreetName userInput)) with _ | ⟨x, xs⟩
      · rw [hfil] at hh; simp at hh
      · rw [hfil] at hh
        simp only [List.head?_cons] at hh
        have hx : x = e := by injection hh.symm
        rw [findBestMatch, hfind]
        dsimp only
        rw [if_pos (by rw [hfil]; simp), hfil, hx]
        rfl
  · decide

/-- Stable insertion permutes. -/
theorem insertByConfidence_perm (c : Candidate) (l : List Candidate) :
    (insertByConfidence c l).Perm (c :: l) := by
  induction l with
  | nil => exact List.Perm.refl _
  | cons d ds ih =>
    rw [insertByConfidence]
    by_cases h : c.confidence ≥ d.confidence
    · simp only [h, if_pos]
      exact List.Perm.refl _
    · simp only [h, if_false]
      exact (ih.cons d).trans (List.Perm.swap c d ds)

/-- The stable sort is a permutation. -/
theorem sortByConfidenceDesc_perm (l : List Candidate) :
    (sortByConfidenceDesc l).Perm l := by
  induction l with
  | nil => exact List.Perm.refl _
  | cons c cs ih =>
    exact (insertByConfidence_perm c (sortByConfidenceDesc cs)).trans (ih.cons c)

/-- Insertion preserves the descending-by-confidence ordering. -/
theorem insertByConfidence_sorted (c : Candidate) (l : List Candidate)
    (h : l.Pairwise (fun a b => b.confidence ≤ a.confidence)) :
    (insertByConfidence c l).Pairwise (fun a b => b.confidence ≤ a.confidence) := by
  induction l with
  | nil => simp [insertByConfidence]
  | cons d ds ih =>
    rw [List.pairwise_cons] at h
    obtain ⟨hd, hds⟩ := h
    rw [insertByConfidence]
    by_cases hc : c.confidence ≥ d.confidence
    · simp only [hc, if_pos]
      rw [List.pairwise_cons]
      refine ⟨?_, List.pairwise_cons.mpr ⟨hd, hds⟩⟩
      intro x hx
      rcases List.mem_cons.mp hx with rfl | hx
      · exact hc
      · exact le_trans (hd x hx) hc
    · simp only [hc, if_false]
      rw [List.pairwise_cons]
      refine ⟨?_, ih hds⟩
      intro x hx
      have hx' := (insertByConfidence_perm c ds).mem_iff.mp hx
      rcases List.mem_cons.mp hx' with rfl | hx'
      · exact le_of_not_ge hc
      · exact hd x hx'

/-- The sort produces a descending-by-confidence list. -/
theorem sortByConfidenceDesc_sorted (l : List Candidate) :
    (sortByConfidenceDesc l).Pairwise (fun a b => b.confidence ≤ a.confidence) := by
  induction l with
  | nil => simp [sortByConfidenceDesc]
  | cons c cs ih => exact insertByConfidence_sorted c _ ih

/-- Every survivor of the duplicate filter is the first occurrence of its
lamp identity in the input, and its identity is not among those already
seen. -/
theorem dedupByLampIdGo_mem (l : List Candidate) :
    ∀ (seen : List String), ∀ c ∈ dedupByLampIdGo seen l,
      seen.contains c.lampId = false ∧
      l.find? (fun d => d.lampId = c.lampId) = some c := by
  induction l with
  | nil => intro seen c hc; simp [dedupByLampIdGo] at hc
  | cons d ds ih =>
    intro seen c hc
    rw [dedupByLampIdGo] at hc
    by_cases hmem : seen.contains d.lampId
    · rw [if_pos hmem] at hc
      obtain ⟨h1, h2⟩ := ih seen c hc
      refine ⟨h1, ?_⟩
      rw [List.find?_cons]
      have hne : (d.lampId = c.lampId) = False := by
        simp only [eq_iff_iff, iff_false]
        intro heq
        rw [heq] at hmem
        rw [hmem] at h1
        simp at h1
      simp only [hne, decide_False]
      exact h2
    · rw [if_neg hmem] at hc
      rcases List.mem_cons.mp hc with rfl | hc
      · refine ⟨by simpa using hmem, ?_⟩
        rw [List.find?_cons]
        simp
      · obtain ⟨h1, h2⟩ := ih (d.lampId :: seen) c hc
        simp only [List.contains_cons, Bool.or_eq_false_iff] at h1
        obtain ⟨hne, hseen⟩ := h1
        refine ⟨hseen, ?_⟩
        rw [List.find?_cons]
        have : (d.lampId = c.lampId) = False := by
          simp only [eq_iff_iff, iff_false]
          intro heq
          rw [← heq] at hne
          simp at hne
        simp only [this, decide_False]
        exact h2

/-- The duplicate filter yields pairwise-distinct lamp identities. -/
theorem dedupByLampIdGo_nodup (l : List Candidate) :
    ∀ seen : List String, ((dedupByLampIdGo seen l).map (·.lampId)).Nodup := by
  induction l with
  | nil => intro seen; simp [dedupByLampIdGo]
  | cons d ds ih =>
    intro seen
    rw [dedupByLampIdGo]
    by_cases hmem : seen.contains d.lampId
    · rw [if_pos hmem]; exact ih seen
    · rw [if_neg hmem]
      simp only [List.map_cons, List.nodup_cons]
      refine ⟨?_, ih (d.lampId :: seen)⟩
      intro hd
      obtain ⟨c, hc, hceq⟩ := List.mem_map.mp hd
      obtain ⟨h1, -⟩ := dedupByLampIdGo_mem ds (d.lampId :: seen) c hc
      rw [hceq] at h1
      simp at h1




/-- C3 counterexample: the scorer does not keep the highest-confidence
occurrence per lamp — deduplication keeps the *first* occurrence (lamp `A`
is returned with confidence 1/2 though a later occurrence had 9/10) — and
the degraded fallback returns 5 candidates, so not every returned sequence
has at most 3. -/
theorem C3_counterexample :
    identifyLikelyLamps geoC3 analysisC3 [] =
      [{ lampId := "A", lampNumber := "L1", distance := 50, confidence := 1/2,
         coords := (17, 48) }] ∧
    ({ lampId := "A", lampNumber := "L1", distance := 10, confidence := 9/10,
       coords := (17, 48) } : Candidate) ∈ geoCandidates geoC3 analysisC3 [] ∧
    (identifyLikelyLamps geoNoneEnv analysisNoComponents lampsC3).length = 5 := by
  have ha1 : "loc" ++ ", " ++ "c1" = "loc, c1" := rfl
  have ha2 : "loc" ++ ", " ++ "c2" = "loc, c2" := rfl
  have hne : ("loc, c2" = "loc, c1") = False := by simp
  have hL1 : ("L1" = "") = False := by simp
  refine ⟨?_, ?_, ?_⟩
  · norm_num [identifyLikelyLamps, geoCandidates, analysisC3, geoC3, lampA,
      dedupByLampId, dedupByLampIdGo, sortByConfidenceDesc, insertByConfidence,
      ratMax, ratMin, lampNumberOrNA, ha1, ha2, hne, hL1]
  · norm_num [geoCandidates, analysisC3, geoC3, lampA, ratMax, ratMin,
      lampNumberOrNA, ha1, ha2, hne, hL1]
  · norm_num [identifyLikelyLamps, geoCandidates, analysisNoComponents,
      geoNoneEnv, lampsC3, ratMax, lampNumberOrNA]



/-- C3 (amended): the incident scorer deduplicates by lamp identity keeping
the *first* occurrence in discovery order, sorts descending by confidence
and truncates to at most 3 candidates on the geocoded path; when geocoding
produced no candidate it degrades to the first up-to-5 street lamps, so
every returned sequence has at most 5 candidates (at most 3 when geocoded
candidates exist). -/
theorem C3_scorer_amended :
    ∀ (geo : GeoEnv) (analysis : LocationAnalysis) (streetLamps : List Lamp),
      (identifyLikelyLamps geo analysis streetLamps).length ≤ 5 ∧
      (geoCandidates geo analysis streetLamps ≠ [] →
        (identifyLikelyLamps geo analysis streetLamps).length ≤ 3 ∧
        (identifyLikelyLamps geo analysis streetLamps).Pairwise
          (fun a b => b.confidence ≤ a.confidence) ∧
        ((identifyLikelyLamps geo analysis streetLamps).map (·.lampId)).Nodup ∧
        ∀ c ∈ identifyLikelyLamps geo analysis streetLamps,
          (geoCandidates geo analysis streetLamps).find?
            (fun d => d.lampId = c.lampId) = some c) ∧
      (geoCandidates geo analysis streetLamps = [] →
        (identifyLikelyLamps geo analysis streetLamps).length =
          min 5 streetLamps.length) := by
  intro geo analysis streetLamps
  by_cases hcs : (geoCandidates geo analysis streetLamps).length = 0
  · have hout : identifyLikelyLamps geo analysis streetLamps =
        (streetLamps.take 5).enum.map fun p =>
          { lampId := p.2.id
            lampNumber := lampNumberOrNA p.2.lampNumber
            distance := 999
            confidence := ratMax (1/10) (2/5 - p.1 * (1/20))
            coords := p.2.coords } := by
      rw [identifyLikelyLamps]
      dsimp only
      rw [if_pos hcs]
    refine ⟨?_, ?_, ?_⟩
    · rw [hout]
      simp only [List.length_map, List.enum_length, List.length_take]
      exact Nat.min_le_left _ _
    · intro hne
      exact absurd (List.length_eq_zero.mp hcs) hne
    · intro _
      rw [hout]
      simp only [List.length_map, List.enum_length, List.length_take]
  · have hout : identifyLikelyLamps geo analysis streetLamps =
        (sortByConfidenceDesc
          (dedupByLampId (geoCandidates geo analysis streetLamps))).take 3 := by
      rw [identifyLikelyLamps]
      dsimp only
      rw [if_neg hcs]
    refine ⟨?_, ?_, ?_⟩
    · rw [hout]
      exact le_trans (List.length_take_le 3 _) (by omega)
    · intro _
      refine ⟨?_, ?_, ?_, ?_⟩
      · rw [hout]
        exact List.length_take_le _ _
      · rw [hout]
        exact List.Pairwise.sublist (List.take_sublist 3 _)
          (sortByConfidenceDesc_sorted _)
      · rw [hout, List.map_take]
        refine List.Nodup.sublist (List.take_sublist 3 _) ?_
        refine ((sortByConfidenceDesc_perm _).map (·.lampId)).nodup_iff.mpr ?_
        rw [dedupByLampId]
        exact dedupByLampIdGo_nodup _ []
      · intro c hc
        rw [hout] at hc
        have hc2 : c ∈ sortByConfidenceDesc
            (dedupByLampId (geoCandidates geo analysis streetLamps)) :=
          (List.take_sublist 3 _).subset hc
        have hc3 : c ∈ dedupByLampId (geoCandidates geo analysis streetLamps) :=
          (sortByConfidenceDesc_perm _).mem_iff.mp hc2
        rw [dedupByLampId] at hc3
        exact (dedupByLampIdGo_mem _ [] c hc3).2
    · intro heq
      exact absurd (by rw [heq]; rfl) hcs

/-- Witness for C3 at the concrete geocoder scenarios. -/
theorem C3_witness :
    (identifyLikelyLamps geoC3 analysisC3 []).length ≤ 3 ∧
    (identifyLikelyLamps geoNoneEnv analysisNoComponents lampsC3).length =
      min 5 lampsC3.length := by
  have hne : geoCandidates geoC3 analysisC3 [] ≠ [] := by
    have ha1 : "loc" ++ ", " ++ "c1" = "loc, c1" := rfl
    have ha2 : "loc" ++ ", " ++ "c2" = "loc, c2" := rfl
    have hcc : ("loc, c2" = "loc, c1") = False := by simp
    norm_num [geoCandidates, analysisC3, geoC3, lampA, ratMax, ratMin,
      lampNumberOrNA, ha1, ha2, hcc]
    simp
  have hnil : geoCandidates geoNoneEnv analysisNoComponents lampsC3 = [] := rfl
  exact ⟨((C3_scorer_amended geoC3 analysisC3 []).2.1 hne).1,
         (C3_scorer_amended geoNoneEnv analysisNoComponents lampsC3).2.2 hnil⟩

/-- Under an all-empty environment, `searchByStreetAttribute` on a string
that de-accenting changes records exactly one de-accent retry. -/
theorem searchByStreetAttribute_empty_trace (env : AttrEnv)
    (fields : FieldDiscovery) (street : String)
    (hall : ∀ w, caughtQuery env w = [])
    (hdiff : removeDiacritics street ≠ street) :
    searchByStreetAttribute env fields street =
      ([], [(street, removeDiacritics street)]) := by
  rw [searchByStreetAttribute]
  rw [tryStreetVariants_fst_empty env street fields.streetFields hall]
  simp only [List.length_nil, if_pos, hdiff, if_true, ite_not]
  rw [tryStreetVariants_fst_empty env (removeDiacritics street) fields.streetFields hall]
  simp [hdiff]

/-- C8 counterexample: the de-accented retry is *not* attempted only once
per request.  For the request `Ružinovská` (normalized form `ružinovská`,
which contains diacritics) against an all-empty store, the AI-suggestion
loop re-enters the attribute search with the suggestion `Studenohorská`,
whose own de-accent retry also runs: the request performs two de-accent
retries. -/
theorem C8_counterexample :
    normalizeStreet "Ružinovská" = "ružinovská" ∧
    removeDiacritics "ružinovská" = "ruzinovska" ∧
    ("ruzinovska" : String) ≠ "ružinovská" ∧
    (searchLamps envOkEmpty spatialOkEmpty matcherC8 schemaC8 (fun _ => "0.5")
        requestC8).deAccentTrace =
      [("ružinovská", "ruzinovska"), ("Studenohorská", "Studenohorska")] ∧
    (searchLamps envOkEmpty spatialOkEmpty matcherC8 schemaC8 (fun _ => "0.5")
        requestC8).deAccentTrace.length = 2 := by
  have hall : ∀ w, caughtQuery envOkEmpty w = [] := fun w =>
    caughtQuery_single envOkEmpty w ⟨[], false⟩ rfl (by decide) rfl
  have h1 : searchByStreetAttribute envOkEmpty schemaC8 "ružinovská" =
      ([], [("ružinovská", "ruzinovska")]) := by
    have h := searchByStreetAttribute_empty_trace envOkEmpty schemaC8
      "ružinovská" hall (by decide)
    rw [show removeDiacritics "ružinovská" = "ruzinovska" from by decide] at h
    exact h
  have h2 : searchByStreetAttribute envOkEmpty schemaC8 "Studenohorská" =
      ([], [("Studenohorská", "Studenohorska")]) := by
    have h := searchByStreetAttribute_empty_trace envOkEmpty schemaC8
      "Studenohorská" hall (by decide)
    rw [show removeDiacritics "Studenohorská" = "Studenohorska" from by decide] at h
    exact h
  have hloop : suggestionLoop envOkEmpty schemaC8 ["Studenohorská"] =
      ([], [("Studenohorská", "Studenohorska")]) := by
    rw [suggestionLoop, h2]
    simp [suggestionLoop]
  have hmain : searchLamps envOkEmpty spatialOkEmpty matcherC8 schemaC8
      (fun _ => "0.5") requestC8 =
      { lamps := [], fieldDiscovery := schemaC8
        suggestedStreets := ["Studenohorská"]
        deAccentTrace := [("ružinovská", "ruzinovska"),
                          ("Studenohorská", "Studenohorska")] } := by
    rw [searchLamps]
    simp only [requestC8]
    rw [show normalizeStreet "Ružinovská" = "ružinovská" from by decide]
    simp only [h1, matcherC8, List.take, hloop]
    simp [h1, hloop, transformFeaturesToLamps]
  refine ⟨by decide, by decide, by decide, ?_, ?_⟩ <;> (rw [hmain]; try rfl)



/-- C8 (amended): within each attribute-search invocation the de-accented
retry runs at most once, only after the direct per-field and combined
queries for that string found nothing, and uses the de-accented string,
which is strictly different from the string being retried; a request may
re-enter the attribute search for up to two gazetteer/AI suggestions, so
the de-accent step is attempted at most three times per request (not once). -/
theorem C8_deaccent_amended :
    (∀ (env : AttrEnv) (fields : FieldDiscovery) (street : String),
      (searchByStreetAttribute env fields street).2.length ≤ 1 ∧
      ∀ p ∈ (searchByStreetAttribute env fields street).2,
        p.1 = street ∧ p.2 = removeDiacritics street ∧ p.2 ≠ p.1 ∧
        (tryStreetVariants env street fields.streetFields).1 = []) ∧
    (∀ (env : AttrEnv) (spatial : SpatialEnv) (matcher : String → List String)
       (fields : FieldDiscovery) (rand : Nat → String)
       (request : LampSearchRequest),
      (searchLamps env spatial matcher fields rand request).deAccentTrace.length ≤ 3) := by
  constructor
  · intro env fields street
    rcases searchByStreetAttribute_trace env fields street with h | ⟨h, hdiff, hdir⟩
    · rw [h]
      exact ⟨by simp, by intro p hp; simp at hp⟩
    · rw [h]
      refine ⟨by simp, ?_⟩
      intro p hp
      simp only [List.mem_singleton] at hp
      subst hp
      exact ⟨rfl, rfl, by simpa using hdiff, hdir⟩
  · intro env spatial matcher fields rand request
    rcases request with ⟨street, lat, lng⟩
    have hloop : ∀ l : List String,
        (suggestionLoop env fields (l.take 2)).2.length ≤ 2 :=
      fun l => le_trans (suggestionLoop_trace_length env fields (l.take 2))
        (List.length_take_le 2 l)
    have hsba : ∀ s, (searchByStreetAttribute env fields s).2.length ≤ 1 :=
      fun s => searchByStreetAttribute_trace_length env fields s
    cases lat <;> cases lng <;>
      (rw [searchLamps]
       dsimp only
       split_ifs <;>
         simp only [List.length_append, List.length_nil] <;>
         first
           | omega
           | (have hq1 := hsba (normalizeStreet street)
              have hq2 := hloop (matcher (normalizeStreet street))
              omega))



/-- Witness for C8 at the concrete all-empty environment. -/
theorem C8_witness :
    (searchByStreetAttribute envOkEmpty schemaC8 "ružinovská").2.length ≤ 1 ∧
    (("ružinovská", "ruzinovska").1 = "ružinovská" ∧
     ("ružinovská", "ruzinovska").2 = removeDiacritics "ružinovská" ∧
     ("ružinovská", "ruzinovska").2 ≠ ("ružinovská", "ruzinovska").1 ∧
     (tryStreetVariants envOkEmpty "ružinovská" schemaC8.streetFields).1 = []) ∧
    (searchLamps envOkEmpty spatialOkEmpty matcherC8 schemaC8 (fun _ => "0.5")
        requestC8).deAccentTrace.length ≤ 3 := by
  have hall : ∀ w, caughtQuery envOkEmpty w = [] := fun w =>
    caughtQuery_single envOkEmpty w ⟨[], false⟩ rfl (by decide) rfl
  have h1 := searchByStreetAttribute_empty_trace envOkEmpty schemaC8
    "ružinovská" hall (by decide)
  refine ⟨(C8_deaccent_amended.1 envOkEmpty schemaC8 "ružinovská").1, ?_,
    C8_deaccent_amended.2 envOkEmpty spatialOkEmpty matcherC8 schemaC8
      (fun _ => "0.5") requestC8⟩
  exact (C8_deaccent_amended.1 envOkEmpty schemaC8 "ružinovská").2
    ("ružinovská", "ruzinovska")
    (by rw [h1, show removeDiacritics "ružinovská" = "ruzinovska" from by decide]
        simp)

/-- C9: `searchLamps` never raises because of a failed remote query — every
query failure inside the cascade (the spatial step, each per-field query,
and the combined-OR query) is caught and treated as zero results for that
strategy, so even when every remote query fails the operation completes and
returns an empty lamp list rather than propagating the transport error. -/
theorem C9_no_raise :
    ∀ (env : AttrEnv) (spatial : SpatialEnv) (matcher : String → List String)
      (fields : FieldDiscovery) (rand : Nat → String)
      (request : LampSearchRequest),
      (∀ w off, ∃ e, env w off = .error e) →
      (∀ lat lng w off, ∃ e, spatial lat lng w off = .error e) →
      (∀ w, caughtQuery env w = []) ∧
      (∀ street lat lng,
        searchWithSpatialFilter spatial street lat lng fields = []) ∧
      (searchLamps env spatial matcher fields rand request).lamps = [] := by
  intro env spatial matcher fields rand request henv hspat
  have hall : ∀ w, caughtQuery env w = [] := fun w => by
    obtain ⟨e, he⟩ := henv w 0
    exact caughtQuery_error env w e he
  have hspatial : ∀ street lat lng,
      searchWithSpatialFilter spatial street lat lng fields = [] := by
    intro street lat lng
    obtain ⟨e, he⟩ :=
      hspat lat lng (buildStreetWhereClause street fields.streetFields) 0
    rw [searchWithSpatialFilter, queryAll, queryAllGo_error _ 0 [] e he]
  refine ⟨hall, hspatial, ?_⟩
  have hsba : ∀ s, (searchByStreetAttribute env fields s).1 = [] :=
    fun s => searchByStreetAttribute_fst_empty env fields s hall
  have hloop : ∀ l, (suggestionLoop env fields l).1 = [] :=
    fun l => suggestionLoop_fst_empty env fields l hall
  rcases request with ⟨street, lat, lng⟩
  cases lat <;> cases lng <;>
    simp [searchLamps, hspatial, hsba, hloop, transformFeaturesToLamps]

/-- Witness for C9 at always-failing environments. -/
theorem C9_witness :
    (∀ w, caughtQuery envErr w = []) ∧
    (∀ street lat lng,
      searchWithSpatialFilter spatialErr street lat lng schemaC8 = []) ∧
    (searchLamps envErr spatialErr matcherC8 schemaC8 (fun _ => "0.5")
        requestC8).lamps = [] :=
  C9_no_raise envErr spatialErr matcherC8 schemaC8 (fun _ => "0.5") requestC8
    (fun _ _ => ⟨⟨none⟩, rfl⟩) (fun _ _ _ _ => ⟨⟨none⟩, rfl⟩)

/-- C10: for every feature whose attribute map holds a truthy value under
`OBJECTID`, `objectid` or `OID` (checked in that order), the derived lamp's
id is the string form of that value — two runs of the transform produce
identical ids; a feature with none of these keys truthy (including an
`OBJECTID` equal to 0) gets the freshly drawn random placeholder, and two
runs may then produce different ids. -/
theorem C10_id_stability :
    (∀ (feature : ArcGISFeature) (fields : FieldDiscovery) (v : AttrValue)
       (rand1 rand2 : Nat → String),
      lampIdValue feature.attributes = some v →
      transformFeaturesToLamps [feature] fields rand1 =
        transformFeaturesToLamps [feature] fields rand2 ∧
      (transformFeaturesToLamps [feature] fields rand1).map (·.id) =
        ((transformCoordinates feature.geometry).map fun _ => jsString v).toList) ∧
    (∀ (attrs : List (String × AttrValue)) (v : AttrValue),
      attrGet attrs "OBJECTID" = some v → truthy v → lampIdValue attrs = some v) ∧
    (∀ (attrs : List (String × AttrValue)) (v : AttrValue),
      (∀ w, attrGet attrs "OBJECTID" = some w → truthy w = false) →
      attrGet attrs "objectid" = some v → truthy v →
      lampIdValue attrs = some v) ∧
    (∀ (attrs : List (String × AttrValue)),
      (∀ w, attrGet attrs "OBJECTID" = some w → truthy w = false) →
      (∀ w, attrGet attrs "objectid" = some w → truthy w = false) →
      (∀ w, attrGet attrs "OID" = some w → truthy w = false) →
      lampIdValue attrs = none) ∧
    (transformFeaturesToLamps [⟨[("OBJECTID", .num 0)], .point 1 2⟩] schemaC10
        (fun _ => "0.1") ≠
     transformFeaturesToLamps [⟨[("OBJECTID", .num 0)], .point 1 2⟩] schemaC10
        (fun _ => "0.2")) := by
  refine ⟨?_, ?_, ?_, ?_, ?_⟩
  · intro feature fields v rand1 rand2 hv
    have key : ∀ (rand : Nat → String),
        transformFeaturesToLamps [feature] fields rand =
          (match transformCoordinates feature.geometry with
           | none => []
           | some coords =>
             [⟨jsString v,
               extractLampNumber feature.attributes fields.lampIdFields,
               coords, feature.attributes⟩]) := by
      intro rand
      cases hg : transformCoordinates feature.geometry <;>
        simp [transformFeaturesToLamps, hv, hg]
    refine ⟨by rw [key rand1, key rand2], ?_⟩
    rw [key rand1]
    cases hg : transformCoordinates feature.geometry <;> simp [hg]
  · intro attrs v hget ht
    simp [lampIdValue, hget, ht, Option.orElse]
  · intro attrs v h1 hget ht
    rcases hA : attrGet attrs "OBJECTID" with _ | w
    · simp [lampIdValue, hA, hget, ht, Option.orElse]
    · simp [lampIdValue, hA, hget, ht, h1 w hA, Option.orElse]
  · intro attrs h1 h2 h3
    have pA : (match attrGet attrs "OBJECTID" with
        | some v => if truthy v then some v else none
        | none => none) = (none : Option AttrValue) := by
      rcases hA : attrGet attrs "OBJECTID" with _ | w
      · rfl
      · simp [h1 w hA]
    have pB : (match attrGet attrs "objectid" with
        | some v => if truthy v then some v else none
        | none => none) = (none : Option AttrValue) := by
      rcases hB : attrGet attrs "objectid" with _ | w
      · rfl
      · simp [h2 w hB]
    have pC : (match attrGet attrs "OID" with
        | some v => if truthy v then some v else none
        | none => none) = (none : Option AttrValue) := by
      rcases hC : attrGet attrs "OID" with _ | w
      · rfl
      · simp [h3 w hC]
    simp only [lampIdValue]
    rw [pA]
    simp only [Option.orElse]
    rw [pB]
    simp only [Option.orElse]
    exact pC
  · intro heq
    have h0 : lampIdValue [("OBJECTID", AttrValue.num 0)] = none := by
      simp [lampIdValue, attrGet, truthy, Option.orElse]
    simp [transformFeaturesToLamps, h0, transformCoordinates] at heq
    exact absurd heq (by decide)



/-- Witness for C10 at a feature with `OBJECTID = 5`. -/
theorem C10_witness :
    (transformFeaturesToLamps [⟨[("OBJECTID", AttrValue.num 5)], .point 1 2⟩]
        schemaC10 (fun _ => "0.1") =
      transformFeaturesToLamps [⟨[("OBJECTID", AttrValue.num 5)], .point 1 2⟩]
        schemaC10 (fun _ => "0.2") ∧
     (transformFeaturesToLamps [⟨[("OBJECTID", AttrValue.num 5)], .point 1 2⟩]
        schemaC10 (fun _ => "0.1")).map (·.id) =
       ((transformCoordinates
           (⟨[("OBJECTID", AttrValue.num 5)], .point 1 2⟩ : ArcGISFeature).geometry).map
         fun _ => jsString (AttrValue.num 5)).toList) ∧
    lampIdValue [("OBJECTID", AttrValue.num 5)] = some (AttrValue.num 5) := by
  have h2 := C10_id_stability.2.1 [("OBJECTID", AttrValue.num 5)]
    (AttrValue.num 5) rfl (by decide)
  exact ⟨C10_id_stability.1 ⟨[("OBJECTID", AttrValue.num 5)], .point 1 2⟩
    schemaC10 (AttrValue.num 5) (fun _ => "0.1") (fun _ => "0.2") h2, h2⟩

end Tsb
